import Mathlib

/-!
A shallow embedding of the RAMSES-II codec core of `ramses_rf`
(`src/ramses_rf/parsers.py` and `src/ramses_rf/protocol/command.py`).

Python exceptions are modelled by the enumerated type `PyExc`, which lists
exactly the exception classes raised by (or caught around) the embedded code.
Fallible Python functions become Lean functions returning `Except PyExc _`.
Hex payload strings are modelled as `List Char`; `hx` converts a string
literal.  Floats are modelled as rationals (all values involved are exact
multiples of small powers of ten, so no floating-point rounding is in play
for the properties below).
-/

namespace RamsesRF

/-- The Python exception classes raised in the embedded code.  `lookupError`
stands for `LookupError` and its subclasses `KeyError`/`IndexError`. -/
inductive PyExc where
  | assertionError
  | attributeError
  | lookupError
  | typeError
  | valueError
  | corruptPacketError
  | corruptPayloadError
  | notImplementedError
deriving DecidableEq, Repr

instance {ε α : Type} [DecidableEq ε] [DecidableEq α] :
    DecidableEq (Except ε α) := fun x y =>
  match x, y with
  | .ok a, .ok b =>
    if h : a = b then .isTrue (by rw [h]) else .isFalse (by simp [h])
  | .error a, .error b =>
    if h : a = b then .isTrue (by rw [h]) else .isFalse (by simp [h])
  | .ok _, .error _ => .isFalse (by simp)
  | .error _, .ok _ => .isFalse (by simp)

/-- Hex payloads are lists of characters. -/
abbrev HexStr := List Char

/-- Convert a string literal to a `HexStr`. -/
def hx (s : String) : HexStr := s.toList

/-- The value of one hex digit, as Python's `int(_, 16)` accepts it
(either case); `none` for a non-hex character. -/
def hexDigitVal (c : Char) : Option Nat :=
  let n := c.toNat
  if 48 ≤ n ∧ n ≤ 57 then some (n - 48)
  else if 65 ≤ n ∧ n ≤ 70 then some (n - 55)
  else if 97 ≤ n ∧ n ≤ 102 then some (n - 87)
  else none

/-- `isHexStr v` holds when every character of `v` is a hex digit. -/
def isHexStr (v : HexStr) : Bool := v.all (fun c => (hexDigitVal c).isSome)

/-- Python's `int(v, 16)`: the numeric value of a non-empty all-hex string,
`ValueError` otherwise.  (Python also tolerates surrounding whitespace,
sign characters and underscores; no payload slice ever contains those.) -/
def pyIntHex (v : HexStr) : Except PyExc Nat :=
  if v = [] then .error .valueError
  else
    v.foldlM (fun acc c =>
      match hexDigitVal c with
      | some d => .ok (acc * 16 + d)
      | none => .error .valueError) 0

/-- `bytes.fromhex`: pairs of hex digits to a list of byte values;
`ValueError` on an odd length or a non-hex digit.  (Python additionally
skips ASCII spaces between pairs; payload slices never contain spaces.) -/
def bytesFromHex : HexStr → Except PyExc (List Nat)
  | [] => .ok []
  | [_] => .error .valueError
  | c1 :: c2 :: rest =>
    match hexDigitVal c1, hexDigitVal c2 with
    | some d1, some d2 => do
        let tail ← bytesFromHex rest
        return (d1 * 16 + d2) :: tail
    | _, _ => .error .valueError

/-! ### Primitive decoders (`parsers.py`, lines 305-369) -/

/-- `_bool` (parsers.py): `assert value in {"00", "C8", "FF"}`; then
`{"00": False, "C8": True}.get(value)` (so `"FF"` gives `None`). -/
def pyBool (value : HexStr) : Except PyExc (Option Bool) :=
  if value = hx "00" then .ok (some false)
  else if value = hx "C8" then .ok (some true)
  else if value = hx "FF" then .ok none
  else .error .assertionError

/-- Result of Python's `datetime(...).strftime("%Y-%m-%d")`, kept abstract as
its three components; the claims only depend on success/failure. -/
structure DateStr where
  year : Nat
  month : Nat
  day : Nat
deriving DecidableEq, Repr

/-- Day count of a month, per Python's `datetime` (proleptic Gregorian). -/
def daysInMonth (year month : Nat) : Nat :=
  if month = 2 then
    if year % 4 = 0 ∧ (year % 100 ≠ 0 ∨ year % 400 = 0) then 29 else 28
  else if month = 4 ∨ month = 6 ∨ month = 9 ∨ month = 11 then 30
  else 31

/-- `_date` (parsers.py): `assert len(value) == 8`; `"FFFFFFFF"` gives `None`;
else `datetime(year=int(value[4:8],16), month=int(value[2:4],16),
day=int(value[:2],16) & 0b11111)` (which raises `ValueError` when out of
range), formatted as a date. -/
def pyDate (value : HexStr) : Except PyExc (Option DateStr) :=
  if value.length ≠ 8 then .error .assertionError
  else if value = hx "FFFFFFFF" then .ok none
  else do
    let year ← pyIntHex ((value.drop 4).take 4)
    let month ← pyIntHex ((value.drop 2).take 2)
    let dayRaw ← pyIntHex (value.take 2)
    let day := dayRaw % 32
    if 1 ≤ year ∧ year ≤ 9999 ∧ 1 ≤ month ∧ month ≤ 12 ∧ 1 ≤ day ∧
        day ≤ daysInMonth year month then
      return some ⟨year, month, day⟩
    else
      .error .valueError

/-- `_percent` (parsers.py): `assert len(value) == 2`; `"EF"/"FE"/"FF"` give
`None`; `assert int(value, 16) <= 200`; else `int(value, 16) / 200`. -/
def pyPercent (value : HexStr) : Except PyExc (Option ℚ) :=
  if value.length ≠ 2 then .error .assertionError
  else if value = hx "EF" ∨ value = hx "FE" ∨ value = hx "FF" then .ok none
  else
    match pyIntHex value with
    | .error e => .error e
    | .ok n =>
      if n ≤ 200 then .ok (some ((n : ℚ) / 200))
      else .error .assertionError

/-- `_str` (parsers.py): `bytearray.fromhex(value)` filtered to printable
ASCII (`31 < x < 127`), decoded and stripped; empty gives `None`.  There is
no length check beyond `fromhex` requiring even-length hex. -/
def pyStr (value : HexStr) : Except PyExc (Option (List Char)) := do
  let bs ← bytesFromHex value
  let printable := bs.filter (fun x => 31 < x ∧ x < 127)
  if printable = [] then return none
  else
    let chars := printable.map Char.ofNat
    return some ((chars.dropWhile (· = ' ')).reverse.dropWhile (· = ' ') |>.reverse)

/-- The value a Python temperature decode can produce: `None`, the literal
`False`, or a number. -/
inductive TempVal where
  | pyNone
  | pyFalse
  | num (q : ℚ)
deriving DecidableEq, Repr

/-- The signed value of a 16-bit two's-complement word. -/
def signed16 (n : Nat) : Int :=
  if n < 2 ^ 15 then (n : Int) else (n : Int) - 2 ^ 16

/-- `_temp` (parsers.py): `assert len(value) == 4`; `"31FF"`/`"7FFF"` give
`None`, `"7EFF"` gives `False`; else the two's-complement value of
`int(value, 16)` divided by 100. -/
def pyTemp (value : HexStr) : Except PyExc TempVal :=
  if value.length ≠ 4 then .error .assertionError
  else if value = hx "31FF" then .ok .pyNone
  else if value = hx "7EFF" then .ok .pyFalse
  else if value = hx "7FFF" then .ok .pyNone
  else
    match pyIntHex value with
    | .error e => .error e
    | .ok temp => .ok (.num ((signed16 temp : ℚ) / 100))

/-- `_flag8` (parsers.py): `byte = bytes.fromhex(byte)[0]` (an `IndexError`,
a `LookupError`, when `fromhex` yields no bytes), then the 8 bits of that
first byte, least-significant first.  Longer even-hex inputs are accepted
and silently truncated to their first byte. -/
def pyFlag8 (byte : HexStr) : Except PyExc (List Nat) := do
  let bs ← bytesFromHex byte
  match bs with
  | [] => .error .lookupError
  | b :: _ => return (List.range 8).map (fun i => b / 2 ^ i % 2)

/-- `_double` (parsers.py): `"7FFF"` gives `None`; `int(val, 16)` must be
`< 32767`; else the value, divided by `factor` when `factor ≠ 1`.  There is
no length check. -/
def pyDouble (val : HexStr) (factor : ℚ) : Except PyExc (Option ℚ) :=
  if val = hx "7FFF" then .ok none
  else do
    let result ← pyIntHex val
    if result < 32767 then
      return some (if factor = 1 then (result : ℚ) else (result : ℚ) / factor)
    else .error .assertionError

/-! ### Hex encoding (Python format strings such as `f"{n:02X}"`) -/

/-- Upper-case hex digit of `n % 16`. -/
def hexChar (n : Nat) : Char :=
  (hx "0123456789ABCDEF").getD (n % 16) '0'

/-- Hex digits of `n` without leading zeros (empty for `0`); first argument
is fuel, always called with `fuel ≥ n`. -/
def natToHexAux : Nat → Nat → List Char
  | 0, _ => []
  | fuel + 1, n =>
    if n = 0 then [] else natToHexAux fuel (n / 16) ++ [hexChar n]

/-- Hex representation of `n`, as Python's `"%X"` (so `"0"` for zero). -/
def natToHex (n : Nat) : HexStr :=
  if n = 0 then hx "0" else natToHexAux n n

/-- Python's `f"{n:0wX}"`: `natToHex n` left-padded with zeros to `width`. -/
def pyHexPad (width n : Nat) : HexStr :=
  let s := natToHex n
  List.replicate (width - s.length) '0' ++ s

/-- Modelled from the spec: `temp_to_hex` (protocol/helpers.py, not under
src/) — the encode-side inverse of the temperature decoder: `None` encodes
as the `"7FFF"` sentinel, a number as the 4-hex two's complement of
`int(temp * 100)` (spec scenario: 20.0 °C encodes as `"07D0"`). -/
def tempToHex (t : Option ℚ) : HexStr :=
  match t with
  | none => hx "7FFF"
  | some q => pyHexPad 4 ((Int.floor (q * 100) % 65536).toNat)

/-- Modelled from the spec: a timestamp argument (`until`); Python `datetime`
objects are always truthy, so only presence matters to the claims. -/
structure PyDateTime where
  val : Nat
deriving DecidableEq, Repr

/-- Modelled from the spec: `dtm_to_hex` (protocol/helpers.py, not under
src/) — a 12-hex-character encoding of a timestamp. -/
def dtmToHex (d : PyDateTime) : HexStr := pyHexPad 12 d.val

/-! ### Zone modes and mode normalisation (command.py, lines 175-237) -/

/-- The five zone modes of `ZONE_MODE` (protocol/const.py, not under src/;
member names as used by command.py). -/
inductive ZoneMode where
  | followSchedule
  | advancedOverride
  | permanentOverride
  | countdownOverride
  | temporaryOverride
deriving DecidableEq, Repr

/-- Modelled from the spec: the 2-hex-character wire code of each zone mode
(`ZONE_MODE._hex`, protocol/const.py, not under src/); the claims depend
only on these codes being fixed and distinct. -/
def ZoneMode.hexCode : ZoneMode → HexStr
  | .followSchedule => hx "00"
  | .advancedOverride => hx "01"
  | .permanentOverride => hx "02"
  | .countdownOverride => hx "03"
  | .temporaryOverride => hx "04"

/-- Python truthiness of an optional integer duration: `None` and `0` are
falsy. -/
def truthyDuration : Option Nat → Bool
  | none => false
  | some n => n ≠ 0

/-- `normalise_zone_mode` (command.py): validates `mode` and returns a
normalised mode.  `target` is `active` (DHW) or `setpoint` (zone); a
`datetime` is always truthy, so `if until and duration` tests
`until.isSome && truthyDuration duration`.  The `ZONE_MODE._hex` lookup on
an explicit mode is the identity here because `mode` arrives already
typed. -/
def normalise_zone_mode (mode : Option ZoneMode) (target : Option α)
    (untl : Option PyDateTime) (duration : Option Nat) :
    Except PyExc ZoneMode :=
  if mode.isNone ∧ target.isNone then .error .valueError
  else if untl.isSome ∧ truthyDuration duration then .error .valueError
  else
    let m := match mode with
      | some m => m
      | none =>
        if untl.isSome then .temporaryOverride
        else if truthyDuration duration then .countdownOverride
        else .permanentOverride
    if m ≠ .followSchedule ∧ target.isNone then .error .valueError
    else .ok m

/-- `normalise_duration` (command.py): validates `until`/`duration` against
the mode and returns them unchanged.  In the temporary-override branch the
Python body also rebinds its local `mode` variable to advanced-override
when `until` is absent, but only `(until, duration)` is returned, so that
rebinding is unobservable by the caller. -/
def normalise_duration (mode : ZoneMode) (untl : Option PyDateTime)
    (duration : Option Nat) :
    Except PyExc (Option PyDateTime × Option Nat) :=
  match mode with
  | .temporaryOverride =>
    if duration.isSome then .error .valueError
    else .ok (untl, duration)
  | .countdownOverride =>
    if duration.isNone then .error .valueError
    else if untl.isSome then .error .valueError
    else .ok (untl, duration)
  | _ =>
    if untl.isSome ∨ duration.isSome then .error .valueError
    else .ok (untl, duration)

/-- The two normalisation steps composed, as every `set_*_mode` constructor
runs them (first `normalise_zone_mode`, then `normalise_duration`). -/
def normalise_both (mode : Option ZoneMode) (target : Option α)
    (untl : Option PyDateTime) (duration : Option Nat) :
    Except PyExc (ZoneMode × Option PyDateTime × Option Nat) :=
  match normalise_zone_mode mode target untl duration with
  | .error e => .error e
  | .ok m =>
    match normalise_duration m untl duration with
    | .error e => .error e
    | .ok (u, d) => .ok (m, u, d)

/-! ### The Command class (command.py, lines 240-356) -/

/-- The four frame verbs. -/
inductive Verb where
  | I
  | RQ
  | RP
  | W
deriving DecidableEq, Repr

/-- A constructed command.  `priority` and `dtm` are the queue-ordering pair
set in `Command.__init__` (`self._priority`, `self._dtm`); `dtm` stands for
the creation timestamp delivered by `dt_now()`, passed explicitly here. -/
structure Command where
  verb : Verb
  code : HexStr
  payload : HexStr
  dstId : HexStr
  priority : Int
  dtm : Nat
deriving DecidableEq, Repr

/-- Modelled from the spec: the frame-format check of `COMMAND_REGEX`
(protocol/const.py, not under src/) as it bears on the constructed frame —
the payload is an even-length string of hex digits and the code is 4 hex
digits (the address fields are fixed by the constructor). -/
def frameFormatOK (c : Command) : Bool :=
  isHexStr c.payload && c.payload.length % 2 == 0 &&
    isHexStr c.code && c.code.length == 4

/-- `Command.is_valid` (command.py): the frame matches `COMMAND_REGEX` and
`2 <= len(self.payload) <= 96`. -/
def Command.is_valid (c : Command) : Bool :=
  frameFormatOK c && 2 ≤ c.payload.length && c.payload.length ≤ 96

/-- `Command.__init__` (command.py): builds the command and raises
`ValueError(f"Invalid command: ...")` unless `self.is_valid`. -/
def Command.mk' (verb : Verb) (code payload dstId : HexStr)
    (priority : Int) (dtm : Nat) : Except PyExc Command :=
  let c : Command := ⟨verb, code, payload, dstId, priority, dtm⟩
  if c.is_valid then .ok c else .error .valueError

/-- `Command.__lt__` (command.py): Python tuple comparison
`(self._priority, self._dtm) < (other._priority, other._dtm)`. -/
def Command.lt (a b : Command) : Bool :=
  a.priority < b.priority || (a.priority == b.priority && a.dtm < b.dtm)

/-- `Command.__eq__` (command.py):
`(self._priority, self._dtm) == (other._priority, other._dtm)`. -/
def Command.eq (a b : Command) : Bool :=
  a.priority == b.priority && a.dtm == b.dtm

/-! ### The `validate_command` decorator (command.py, lines 132-172) -/

/-- The exception classes listed in `_wrapper`'s `except` clause inside
`validate_command`. -/
def caughtByValidateCommand : PyExc → Bool
  | .assertionError => true
  | .attributeError => true
  | .lookupError => true
  | .typeError => true
  | .valueError => true
  | _ => false

/-- `validate_command`'s `_wrapper` (command.py): runs the constructor body;
a caught exception is logged and `None` is returned in its place, so the
decorated constructor yields `some` command, `none`, or (for an uncaught
class only) the exception. -/
def validate_command (body : Except PyExc Command) :
    Except PyExc (Option Command) :=
  match body with
  | .ok c => .ok (some c)
  | .error e => if caughtByValidateCommand e then .ok none else .error e

/-! ### Builder constructors (command.py) -/

/-- The code literals used by the embedded constructors. -/
def code10A0 : HexStr := hx "10A0"

def code1F41 : HexStr := hx "1F41"

def code2349 : HexStr := hx "2349"

/-- Body of `Command.set_dhw_params` (command.py, lines 404-430): defaults,
`assert 30.0 <= setpoint <= 85.0`, `assert 0 <= overrun <= 10`,
`assert 1 <= differential <= 10`, then
`payload = f"00{temp_to_hex(setpoint)}{overrun:02X}{temp_to_hex(differential)}"`
and `cls(W_, _10A0, payload, ctl_id)`. -/
def set_dhw_params_body (ctlId : HexStr) (setpoint : Option ℚ)
    (overrun : Option Nat) (differential : Option ℚ)
    (priority : Int) (dtm : Nat) : Except PyExc Command :=
  let setpoint := setpoint.getD 50
  let overrun := overrun.getD 5
  let differential := differential.getD 1
  if ¬(30 ≤ setpoint ∧ setpoint ≤ 85) then .error .assertionError
  else if ¬(overrun ≤ 10) then .error .assertionError
  else if ¬(1 ≤ differential ∧ differential ≤ 10) then .error .assertionError
  else
    Command.mk' .W code10A0
      (hx "00" ++ tempToHex (some setpoint) ++ pyHexPad 2 overrun ++
        tempToHex (some differential))
      ctlId priority dtm

/-- `Command.set_dhw_params` as the engine calls it: the body wrapped by the
`validate_command` decorator. -/
def set_dhw_params (ctlId : HexStr) (setpoint : Option ℚ)
    (overrun : Option Nat) (differential : Option ℚ)
    (priority : Int) (dtm : Nat) : Except PyExc (Option Command) :=
  validate_command
    (set_dhw_params_body ctlId setpoint overrun differential priority dtm)

/-- Body of `Command.set_zone_mode` (command.py, lines 661-705):
`normalise_zone_mode`, then `normalise_duration`, then
`payload = zone_idx + temp_to_hex(setpoint) + mode +
("FFFFFF" or duration) + ("" or dtm_to_hex(until))` and
`cls(W_, _2349, payload, ctl_id)`.  (`setpoint` arrives typed, so the
Python `isinstance` guard cannot fire.) -/
def set_zone_mode_body (ctlId : HexStr) (zoneIdx : Nat)
    (mode : Option ZoneMode) (setpoint : Option ℚ)
    (untl : Option PyDateTime) (duration : Option Nat)
    (priority : Int) (dtm : Nat) : Except PyExc Command := do
  let m ← normalise_zone_mode mode setpoint untl duration
  let (untl, duration) ← normalise_duration m untl duration
  Command.mk' .W code2349
    (pyHexPad 2 zoneIdx ++ tempToHex setpoint ++ m.hexCode ++
      (match duration with
        | none => hx "FFFFFF"
        | some d => pyHexPad 6 d) ++
      (match untl with
        | none => []
        | some u => dtmToHex u))
    ctlId priority dtm

/-- `Command.set_zone_mode` as the engine calls it: the body wrapped by the
`validate_command` decorator. -/
def set_zone_mode (ctlId : HexStr) (zoneIdx : Nat) (mode : Option ZoneMode)
    (setpoint : Option ℚ) (untl : Option PyDateTime) (duration : Option Nat)
    (priority : Int) (dtm : Nat) : Except PyExc (Option Command) :=
  validate_command
    (set_zone_mode_body ctlId zoneIdx mode setpoint untl duration priority dtm)

/-- Body of `Command.set_dhw_mode` (command.py, lines 404-430 region):
`normalise_zone_mode` (target is `active`), then `normalise_duration`, then
`payload = "00" + ("01" if bool(active) else "00") + mode +
("FFFFFF" or duration) + ("" or dtm_to_hex(until))` and
`cls(W_, _1F41, payload, ctl_id)`. -/
def set_dhw_mode_body (ctlId : HexStr) (mode : Option ZoneMode)
    (active : Option Bool) (untl : Option PyDateTime) (duration : Option Nat)
    (priority : Int) (dtm : Nat) : Except PyExc Command := do
  let m ← normalise_zone_mode mode active untl duration
  let (untl, duration) ← normalise_duration m untl duration
  Command.mk' .W code1F41
    (hx "00" ++ (if active.getD false then hx "01" else hx "00") ++
      m.hexCode ++
      (match duration with
        | none => hx "FFFFFF"
        | some d => pyHexPad 6 d) ++
      (match untl with
        | none => []
        | some u => dtmToHex u))
    ctlId priority dtm

/-- `Command.set_dhw_mode` as the engine calls it: the body wrapped by the
`validate_command` decorator. -/
def set_dhw_mode (ctlId : HexStr) (mode : Option ZoneMode)
    (active : Option Bool) (untl : Option PyDateTime) (duration : Option Nat)
    (priority : Int) (dtm : Nat) : Except PyExc (Option Command) :=
  validate_command
    (set_dhw_mode_body ctlId mode active untl duration priority dtm)

/-! ### Decoded records and payload indices (parsers.py) -/

/-- The record keys used by the embedded parsers and index extraction. -/
inductive RKey where
  | zoneIdx
  | parentIdx
  | domainId
  | ufhIdx
  | dhwIdx
  | hvacId
  | otherIdx
  | zoneId
  | logIdx
  | timestamp
  | faultState
  | faultType
  | deviceClass
  | deviceId
  | unknown1
  | unknown2
  | unknown3
deriving DecidableEq, Repr

/-- A record field value: a (decoded) string or Python `None`. -/
inductive FieldV where
  | s (v : String)
  | null
deriving DecidableEq, Repr

/-- A decoded record: an insertion-ordered mapping, as a Python dict. -/
abbrev Record := List (RKey × FieldV)

/-- Whether a record carries a key. -/
def hasKey (r : Record) (k : RKey) : Bool := r.any (fun p => decide (p.1 = k))

/-- A Python `assert cond` in front of the rest of a parser body:
`AssertionError` when the condition fails, else the continuation. -/
def pyAssert (cond : Prop) [Decidable cond] (k : Except PyExc Record) :
    Except PyExc Record :=
  if cond then k else .error .assertionError

/-- How many of the six identity keys (`zone_idx`, `domain_id`, `ufh_idx`,
`dhw_idx`, `hvac_id`, `other_idx`) a record carries. -/
def idxKeyCount (r : Record) : Nat :=
  (if hasKey r .zoneIdx then 1 else 0) +
    (if hasKey r .domainId then 1 else 0) +
    (if hasKey r .ufhIdx then 1 else 0) +
    (if hasKey r .dhwIdx then 1 else 0) +
    (if hasKey r .hvacId then 1 else 0) +
    (if hasKey r .otherIdx then 1 else 0)

/-- Python `{**a, **b}`: keys of `a` then keys of `b`, `b` winning. -/
def pyMerge (a b : Record) : Record :=
  a.filter (fun p => !hasKey b p.1) ++ b

/-- `payload[a:b]` on a hex string. -/
def pySlice (v : HexStr) (a b : Nat) : HexStr := (v.drop a).take (b - a)

/-- The index kinds a message can carry at the wrapper level. -/
inductive IdxKind where
  | noIdx
  | zoneIdx
  | parentIdx
  | domainId
  | ufhIdx
  | dhwIdx
  | hvacId
  | otherIdx
  | logIdx
deriving DecidableEq, Repr

/-- Modelled from the spec: `Message._idx` (protocol/message.py, not under
src/) — "Extracted from the leading payload byte(s) per code-specific rule;
exactly one kind applies per code, never multiple": the wrapper-level index
mapping is empty or a single entry of the kind the code calls for. -/
def mkMsgIdx (kind : IdxKind) (v : String) : Record :=
  match kind with
  | .noIdx => []
  | .zoneIdx => [(.zoneIdx, .s v)]
  | .parentIdx => [(.parentIdx, .s v)]
  | .domainId => [(.domainId, .s v)]
  | .ufhIdx => [(.ufhIdx, .s v)]
  | .dhwIdx => [(.dhwIdx, .s v)]
  | .hvacId => [(.hvacId, .s v)]
  | .otherIdx => [(.otherIdx, .s v)]
  | .logIdx => [(.logIdx, .s v)]

/-- `_idx` (parsers.py, lines 129-162): validates the message's index
mapping `msg._idx` against the payload and returns it unchanged.  The
branches are an `elif` chain keyed on which identity key is present; a
non-empty mapping with none of the known keys raises `TypeError`. -/
def idx_check (seqx : HexStr) (msgIdx : Record) (rawPayload : HexStr)
    (maxZones : Nat) : Except PyExc Record :=
  if hasKey msgIdx .zoneIdx ∨ hasKey msgIdx .parentIdx then
    match pyIntHex (pySlice rawPayload 0 2) with
    | .error e => .error e
    | .ok n => pyAssert (n < maxZones) (.ok msgIdx)
  else if hasKey msgIdx .domainId then
    pyAssert (seqx = hx "F9" ∨ seqx = hx "FA" ∨ seqx = hx "FC") (.ok msgIdx)
  else if hasKey msgIdx .ufhIdx then
    match pyIntHex seqx with
    | .error e => .error e
    | .ok n => pyAssert (n < 8) (.ok msgIdx)
  else if hasKey msgIdx .dhwIdx then
    pyAssert (seqx = hx "00" ∨ seqx = hx "01") (.ok msgIdx)
  else if hasKey msgIdx .hvacId then
    pyAssert (seqx = hx "00" ∨ seqx = hx "01" ∨ seqx = hx "21") (.ok msgIdx)
  else if hasKey msgIdx .otherIdx then
    match pyIntHex (pySlice rawPayload 4 6) with
    | .error e => .error e
    | .ok n => pyAssert (n < maxZones) (.ok msgIdx)
  else if msgIdx ≠ [] then .error .typeError
  else .ok msgIdx

/-! ### The fault-log parser, `parser_0418` (parsers.py, lines 787-857) -/

/-- Modelled from the spec: `CODE_0418_FAULT_STATE` (protocol/const.py, not
under src/) — the enumerated fault-state table; representative entries. -/
def CODE_0418_FAULT_STATE : List (HexStr × String) :=
  [(hx "00", "fault"), (hx "40", "restore"), (hx "C0", "unknown_c0")]

/-- Modelled from the spec: `CODE_0418_FAULT_TYPE` (protocol/const.py, not
under src/) — the enumerated fault-type table; representative entries. -/
def CODE_0418_FAULT_TYPE : List (HexStr × String) :=
  [(hx "01", "system_fault"), (hx "03", "mains_low"), (hx "04", "battery_low"),
    (hx "06", "comms_fault"), (hx "0A", "sensor_error")]

/-- Modelled from the spec: `CODE_0418_DEVICE_CLASS` (protocol/const.py, not
under src/) — the enumerated device-class table; representative entries. -/
def CODE_0418_DEVICE_CLASS : List (HexStr × String) :=
  [(hx "00", "controller"), (hx "01", "sensor"), (hx "04", "actuator"),
    (hx "05", "dhw_sensor")]

/-- Modelled from the spec: `dts_from_hex` (protocol/helpers.py, not under
src/) — decodes a 12-hex timestamp; kept as a pass-through since only the
key structure of the record matters to the claims. -/
def dtsFromHex (v : HexStr) : FieldV := .s (String.mk v)

/-- Modelled from the spec: `hex_id_to_dec` (protocol/address.py, not under
src/) — converts a 6-hex device id to its display form; pass-through. -/
def hexIdToDec (v : HexStr) : FieldV := .s (String.mk v)

/-- `ATTR_HTG_CONTROL`: the "heating control" relabel applied when domain
`FC` carries an actuator-class fault entry. -/
def ATTR_HTG_CONTROL : String := "heating_control"

/-- `parser_0418` (parsers.py): decodes one fault-log entry.  `RQ` frames
yield only the requested `log_idx`; the null entry yields `{}`; otherwise
the asserted fields are checked in source order and the record is built,
with the `FC`+actuator relabel, the conditional `zone_id`/`domain_id` key
(the source uses the literal key `"zone_id"` — not `"zone_idx"` — per its
`TODO` comment, so `RKey.zoneId` here is distinct from `RKey.zoneIdx`),
the conditional `device_id`, and the three `_unknown_N` pass-through
bytes. -/
def parser_0418 (payload : HexStr) (verb : Verb) (maxZones : Nat) :
    Except PyExc Record :=
  if verb = .RQ then .ok [(.logIdx, .s (String.mk (pySlice payload 4 6)))]
  else if payload.drop 2 = hx "000000B0000000000000000000007FFFFF7000000000" then
    .ok []
  else
    pyAssert (verb = .I ∨ verb = .RP) <|
    pyAssert ((CODE_0418_FAULT_STATE.lookup (pySlice payload 2 4)).isSome) <|
    match pyIntHex (pySlice payload 4 6) with
    | .error e => .error e
    | .ok logNum =>
    pyAssert (logNum < 64) <|
    pyAssert ((CODE_0418_FAULT_TYPE.lookup (pySlice payload 8 10)).isSome) <|
      match pyIntHex (pySlice payload 10 12) with
      | .error e => .error e
      | .ok domNum =>
      pyAssert (domNum < maxZones ∨ pySlice payload 10 12 = hx "F9" ∨
          pySlice payload 10 12 = hx "FA" ∨
          pySlice payload 10 12 = hx "FC") <|
      pyAssert ((CODE_0418_DEVICE_CLASS.lookup (pySlice payload 12 14)).isSome) <|
      pyAssert (pySlice payload 28 30 = hx "7F" ∨
          pySlice payload 28 30 = hx "FF") <|
        let faultState :=
          ((CODE_0418_FAULT_STATE.lookup (pySlice payload 2 4)).getD
            (String.mk (pySlice payload 2 4)))
        let faultType :=
          ((CODE_0418_FAULT_TYPE.lookup (pySlice payload 8 10)).getD
            (String.mk (pySlice payload 8 10)))
        let deviceClass0 :=
          ((CODE_0418_DEVICE_CLASS.lookup (pySlice payload 12 14)).getD
            (String.mk (pySlice payload 12 14)))
        let deviceClass :=
          if pySlice payload 10 12 = hx "FC" ∧ deviceClass0 = "actuator" then
            ATTR_HTG_CONTROL
          else deviceClass0
        let base : Record :=
          [(.logIdx, .s (String.mk (pySlice payload 4 6))),
            (.timestamp, dtsFromHex (pySlice payload 18 30)),
            (.faultState, .s faultState),
            (.faultType, .s faultType),
            (.deviceClass, .s deviceClass)]
        let r1 : Record :=
          if pySlice payload 12 14 ≠ hx "00" then
            base ++ [(if domNum < maxZones then RKey.zoneId else RKey.domainId,
              .s (String.mk (pySlice payload 10 12)))]
          else base
        let r2 : Record :=
          if payload.drop 38 = hx "000002" then r1 ++ [(.deviceId, .null)]
          else if ¬(payload.drop 38 = hx "000000" ∨ payload.drop 38 = hx "000001") then
            r1 ++ [(.deviceId, hexIdToDec (payload.drop 38))]
          else r1
        pyAssert (pySlice payload 6 8 = hx "B0") <|
        pyAssert (pySlice payload 14 18 = hx "0000") <|
        pyAssert (pySlice payload 30 38 = hx "FFFF7000") <|
          .ok (r2 ++ [(.unknown1, .s (String.mk (pySlice payload 6 8))),
            (.unknown2, .s (String.mk (pySlice payload 14 18))),
            (.unknown3, .s (String.mk (pySlice payload 30 38)))])

/-- The wrapper's result merge for `0418` (a `CODE_IDX_COMPLEX` code): the
parser result, a dict, is merged under the wrapper-level index
(`{**msg._idx, **result}`); for `0418` that index is the `log_idx` entry. -/
def parse_0418_full (payload : HexStr) (verb : Verb) (maxZones : Nat) :
    Except PyExc Record :=
  match parser_0418 payload verb maxZones with
  | .error e => .error e
  | .ok r =>
    .ok (pyMerge (mkMsgIdx .logIdx (String.mk (pySlice payload 4 6))) r)

/-! ### The top-level parse entry point (parsers.py, lines 2059-2087) -/

/-- A payload parse outcome: a record or a list of records. -/
inductive ParseResult where
  | one (r : Record)
  | many (rs : List Record)
deriving DecidableEq, Repr

/-- The frame metadata a parser consumes. -/
structure Msg where
  code : HexStr
  verb : Verb
  payload : HexStr
  maxZones : Nat
deriving DecidableEq, Repr

/-- A registered payload parser. -/
abbrev PayloadParser := Msg → Except PyExc ParseResult

/-- `parser_unknown` (parsers.py, lines 2046-2049): unconditionally raises
`NotImplementedError`. -/
def parser_unknown : PayloadParser := fun _ => .error .notImplementedError

/-- `PAYLOAD_PARSERS` (parsers.py): the code-to-parser registry; here the
embedded entry. -/
def PAYLOAD_PARSERS : List (HexStr × PayloadParser) :=
  [(hx "0418", fun m => (parse_0418_full m.payload m.verb m.maxZones).map .one)]

/-- `PAYLOAD_PARSERS.get(msg.code, parser_unknown)`. -/
def getParser (code : HexStr) : PayloadParser :=
  (PAYLOAD_PARSERS.lookup code).getD parser_unknown

/-- The exception classes listed across the four `except` clauses of
`parse_payload`: `AssertionError`; `CorruptPacketError` /
`CorruptPayloadError`; `AttributeError` / `LookupError` / `TypeError` /
`ValueError`; `NotImplementedError`. -/
def caughtByParsePayload : PyExc → Bool
  | .assertionError => true
  | .corruptPacketError => true
  | .corruptPayloadError => true
  | .attributeError => true
  | .lookupError => true
  | .typeError => true
  | .valueError => true
  | .notImplementedError => true

/-- `parse_payload` (parsers.py): dispatches on `msg.code`, and on any
caught exception logs it and leaves `result` as `None`; an exception class
outside the four clauses would propagate.  (The `assert isinstance(result,
(dict, list))` after a successful parse cannot fire: every registered
parser is wrapped by `parser_decorator`, whose return is always a dict or
a list.) -/
def parse_payload (msg : Msg) : Except PyExc (Option ParseResult) :=
  match getParser msg.code msg with
  | .ok r => .ok (some r)
  | .error e => if caughtByParsePayload e then .ok none else .error e

/-! ## Supporting lemmas -/

theorem hexChar_isSome (n : Nat) : (hexDigitVal (hexChar n)).isSome := by
  unfold hexChar
  have h : n % 16 < 16 := Nat.mod_lt _ (by norm_num)
  generalize n % 16 = k at h ⊢
  interval_cases k <;> decide

theorem natToHexAux_isSome (fuel : Nat) :
    ∀ n, ∀ c ∈ natToHexAux fuel n, (hexDigitVal c).isSome := by
  induction fuel with
  | zero => intro n c hc; simp [natToHexAux] at hc
  | succ fuel ih =>
    intro n c hc
    unfold natToHexAux at hc
    by_cases h : n = 0
    · rw [if_pos h] at hc; simp at hc
    · rw [if_neg h] at hc
      rcases List.mem_append.1 hc with h' | h'
      · exact ih _ _ h'
      · rcases List.mem_singleton.1 h' with rfl
        exact hexChar_isSome _

theorem natToHex_isSome (n : Nat) :
    ∀ c ∈ natToHex n, (hexDigitVal c).isSome := by
  intro c hc
  unfold natToHex at hc
  by_cases h : n = 0
  · rw [if_pos h] at hc
    have : c = '0' := by simpa [hx] using hc
    subst this; decide
  · rw [if_neg h] at hc
    exact natToHexAux_isSome _ _ _ hc

theorem pyHexPad_isHex (w n : Nat) : isHexStr (pyHexPad w n) = true := by
  unfold pyHexPad isHexStr
  rw [List.all_eq_true]
  intro c hc
  rcases List.mem_append.1 hc with h | h
  · rcases List.eq_of_mem_replicate h with rfl
    decide
  · exact natToHex_isSome _ _ h

theorem natToHexAux_length (fuel : Nat) :
    ∀ n k, n < 16 ^ k → (natToHexAux fuel n).length ≤ k := by
  induction fuel with
  | zero => intro n k _; simp [natToHexAux]
  | succ fuel ih =>
    intro n k hn
    unfold natToHexAux
    by_cases h : n = 0
    · rw [if_pos h]; simp
    · rw [if_neg h]
      cases k with
      | zero => exact absurd (Nat.lt_one_iff.1 (by simpa using hn)) h
      | succ k =>
        have hdiv : n / 16 < 16 ^ k := by
          rw [Nat.div_lt_iff_lt_mul (by norm_num)]
          calc n < 16 ^ (k + 1) := hn
            _ = 16 ^ k * 16 := by ring
        have := ih (n / 16) k hdiv
        simp only [List.length_append, List.length_singleton]
        omega

theorem pyHexPad_length (w n : Nat) (hw : 1 ≤ w) (hn : n < 16 ^ w) :
    (pyHexPad w n).length = w := by
  have hlen : (natToHex n).length ≤ w := by
    unfold natToHex
    split
    · simpa [hx] using hw
    · exact natToHexAux_length _ _ _ hn
  unfold pyHexPad
  simp only [List.length_append, List.length_replicate]
  omega

theorem tempToHex_some_length (q : ℚ) : (tempToHex (some q)).length = 4 := by
  unfold tempToHex
  apply pyHexPad_length _ _ (by norm_num)
  have h1 : 0 ≤ Int.floor (q * 100) % 65536 :=
    Int.emod_nonneg _ (by norm_num)
  have h2 : Int.floor (q * 100) % 65536 < 65536 :=
    Int.emod_lt_of_pos _ (by norm_num)
  omega

theorem isHexStr_append (a b : HexStr) :
    isHexStr (a ++ b) = (isHexStr a && isHexStr b) := by
  simp [isHexStr, List.all_append]

theorem pyAssert_ok {c : Prop} [Decidable c] {k : Except PyExc Record}
    {r : Record} (h : pyAssert c k = .ok r) : k = .ok r := by
  unfold pyAssert at h
  split at h
  · exact h
  · cases h

theorem hasKey_nil (k : RKey) : hasKey [] k = false := rfl

theorem hasKey_cons (k k' : RKey) (fv : FieldV) (r : Record) :
    hasKey ((k', fv) :: r) k = (decide (k' = k) || hasKey r k) := rfl

/-! ## Claims -/

/-- C4: the temperature decoder on a 4-hex-digit input: `"31FF"` and
`"7FFF"` decode to absent, `"7EFF"` decodes to the explicit boolean false
(a value distinct from absent), and every other 4-hex input (hex value
`n`) decodes to the two's-complement signed 16-bit value of `n` divided by
100. -/
theorem temp_decoder_spec :
    (pyTemp (hx "31FF") = .ok .pyNone ∧ pyTemp (hx "7FFF") = .ok .pyNone ∧
      pyTemp (hx "7EFF") = .ok .pyFalse ∧ TempVal.pyFalse ≠ TempVal.pyNone) ∧
    (∀ (v : HexStr) (n : Nat), v.length = 4 → pyIntHex v = .ok n →
      v ≠ hx "31FF" → v ≠ hx "7EFF" → v ≠ hx "7FFF" →
      pyTemp v = .ok (.num ((signed16 n : ℚ) / 100)) ∧
        (n < 2 ^ 15 → signed16 n = (n : Int)) ∧
        (2 ^ 15 ≤ n → signed16 n = (n : Int) - 2 ^ 16)) := by
  refine ⟨by decide, ?_⟩
  intro v n hlen hval h31 h7E h7F
  refine ⟨?_, fun h => ?_, fun h => ?_⟩
  · simp [pyTemp, hlen, h31, h7E, h7F, hval]
  · unfold signed16; rw [if_pos h]
  · unfold signed16; rw [if_neg (Nat.not_lt.2 h)]

/-- C4 witness: the theorem applied at the concrete non-sentinel input
`"F831"` (value 63537, i.e. −19.99 °C). -/
theorem temp_decoder_spec_witness :
    pyTemp (hx "F831") = .ok (.num ((signed16 63537 : ℚ) / 100)) ∧
      (63537 < 2 ^ 15 → signed16 63537 = (63537 : Int)) ∧
      (2 ^ 15 ≤ 63537 → signed16 63537 = (63537 : Int) - 2 ^ 16) :=
  temp_decoder_spec.2 (hx "F831") 63537 (by decide) (by decide)
    (by decide) (by decide) (by decide)

/-- C7: the percentage decoder on a 2-hex-digit input: `"EF"`, `"FE"` and
`"FF"` decode to absent; any other input whose value exceeds 200 (such as
`"C9"`) faults; otherwise the result is the value divided by 200, so
`"C8"` decodes to exactly 1. -/
theorem percent_decoder_spec :
    (pyPercent (hx "EF") = .ok none ∧ pyPercent (hx "FE") = .ok none ∧
      pyPercent (hx "FF") = .ok none) ∧
    (pyPercent (hx "C9") = .error .assertionError ∧
      pyPercent (hx "C8") = .ok (some 1)) ∧
    (∀ (v : HexStr) (n : Nat), v.length = 2 → pyIntHex v = .ok n →
      v ≠ hx "EF" → v ≠ hx "FE" → v ≠ hx "FF" →
      (200 < n → pyPercent v = .error .assertionError) ∧
        (n ≤ 200 → pyPercent v = .ok (some ((n : ℚ) / 200)))) := by
  refine ⟨by decide, ⟨by decide, ?_⟩, ?_⟩
  · rw [show pyPercent (hx "C8") = .ok (some (((200 : Nat) : ℚ) / 200)) from
      rfl]
    norm_num
  intro v n hlen hval hEF hFE hFF
  constructor
  · intro hgt
    simp [pyPercent, hlen, hEF, hFE, hFF, hval, Nat.not_le.2 hgt]
  · intro hle
    simp [pyPercent, hlen, hEF, hFE, hFF, hval, hle]

/-- C7 witness: the theorem applied at the concrete input `"64"`
(value 100, half scale). -/
theorem percent_decoder_spec_witness :
    (200 < 100 → pyPercent (hx "64") = .error .assertionError) ∧
      (100 ≤ 200 → pyPercent (hx "64") = .ok (some ((100 : ℚ) / 200))) :=
  percent_decoder_spec.2.2 (hx "64") 100 (by decide) (by decide) (by decide)
    (by decide) (by decide)

/-- C6 counterexample: the flag-bitmap decoder `_flag8`, whose expected
width is one byte (2 hex digits), accepts the 4-hex-digit input `"0000"`
without fault, silently decoding only the first byte — so it is not true
that every primitive decoder faults on wrong-length input. -/
theorem flag8_wrong_length_no_fault :
    pyFlag8 (hx "0000") = .ok [0, 0, 0, 0, 0, 0, 0, 0] ∧
      (hx "0000").length ≠ 2 := by decide

/-- C6 (amended): the boolean, percentage, temperature and date decoders
fault on any input whose length differs from their fixed width; the
flag-bitmap, double and string decoders do not enforce a fixed width —
`_flag8` silently decodes only the first byte of a longer even-hex input,
`_double` accepts any hex length subject only to its value bound, and
`_str` accepts any even-length hex input. -/
theorem length_fault_spec :
    (∀ v : HexStr, v.length ≠ 2 → pyBool v = .error .assertionError) ∧
    (∀ v : HexStr, v.length ≠ 2 → pyPercent v = .error .assertionError) ∧
    (∀ v : HexStr, v.length ≠ 4 → pyTemp v = .error .assertionError) ∧
    (∀ v : HexStr, v.length ≠ 8 → pyDate v = .error .assertionError) ∧
    (pyFlag8 (hx "12AB") = .ok [0, 1, 0, 0, 1, 0, 0, 0]) ∧
    (pyDouble (hx "FF") 1 = .ok (some 255)) ∧
    (pyStr (hx "41424344") = .ok (some (hx "ABCD"))) := by
  refine ⟨?_, ?_, ?_, ?_, by decide, by decide, by decide⟩
  · intro v h
    have h00 : v ≠ hx "00" := fun hc => by subst hc; exact h rfl
    have hC8 : v ≠ hx "C8" := fun hc => by subst hc; exact h rfl
    have hFF : v ≠ hx "FF" := fun hc => by subst hc; exact h rfl
    simp [pyBool, h00, hC8, hFF]
  · intro v h; simp [pyPercent, h]
  · intro v h; simp [pyTemp, h]
  · intro v h; simp [pyDate, h]

/-- C6 witness: the amended theorem applied at concrete wrong-length
inputs for the four width-enforcing decoders. -/
theorem length_fault_spec_witness :
    pyBool (hx "0") = .error .assertionError ∧
      pyPercent (hx "C80") = .error .assertionError ∧
      pyTemp (hx "7FFFF") = .error .assertionError ∧
      pyDate (hx "FFFFFFF") = .error .assertionError :=
  ⟨length_fault_spec.1 (hx "0") (by decide),
    length_fault_spec.2.1 (hx "C80") (by decide),
    length_fault_spec.2.2.1 (hx "7FFFF") (by decide),
    length_fault_spec.2.2.2.1 (hx "FFFFFFF") (by decide)⟩

/-- C9: commands are totally ordered by the pair `(priority,
creation-timestamp)` ascending — `a` sorts before `b` exactly when `a`'s
pair is lexicographically smaller (a lower numeric priority sorting
first), command equality holds exactly when both components are equal,
and these comparisons form a total order (trichotomy, transitivity,
asymmetry, and incompatibility of `lt` with `eq`). -/
theorem command_ordering_spec :
    (∀ a b : Command, Command.lt a b = true ↔
      (a.priority < b.priority ∨
        (a.priority = b.priority ∧ a.dtm < b.dtm))) ∧
    (∀ a b : Command, Command.eq a b = true ↔
      (a.priority = b.priority ∧ a.dtm = b.dtm)) ∧
    (∀ a b : Command, Command.lt a b = true ∨ Command.eq a b = true ∨
      Command.lt b a = true) ∧
    (∀ a b c : Command, Command.lt a b = true → Command.lt b c = true →
      Command.lt a c = true) ∧
    (∀ a b : Command, Command.lt a b = true → Command.eq a b = false) ∧
    (∀ a b : Command, Command.lt a b = true → Command.lt b a = false) := by
  have hlt : ∀ a b : Command, Command.lt a b = true ↔
      (a.priority < b.priority ∨
        (a.priority = b.priority ∧ a.dtm < b.dtm)) := by
    intro a b; simp [Command.lt]
  have heq : ∀ a b : Command, Command.eq a b = true ↔
      (a.priority = b.priority ∧ a.dtm = b.dtm) := by
    intro a b; simp [Command.eq]
  refine ⟨hlt, heq, ?_, ?_, ?_, ?_⟩
  · intro a b
    rcases lt_trichotomy a.priority b.priority with h | h | h
    · exact Or.inl ((hlt a b).2 (Or.inl h))
    · rcases Nat.lt_trichotomy a.dtm b.dtm with h' | h' | h'
      · exact Or.inl ((hlt a b).2 (Or.inr ⟨h, h'⟩))
      · exact Or.inr (Or.inl ((heq a b).2 ⟨h, h'⟩))
      · exact Or.inr (Or.inr ((hlt b a).2 (Or.inr ⟨h.symm, h'⟩)))
    · exact Or.inr (Or.inr ((hlt b a).2 (Or.inl h)))
  · intro a b c hab hbc
    rcases (hlt a b).1 hab with h1 | ⟨h1, h1'⟩ <;>
      rcases (hlt b c).1 hbc with h2 | ⟨h2, h2'⟩ <;> apply (hlt a c).2
    · exact Or.inl (h1.trans h2)
    · exact Or.inl (h2 ▸ h1)
    · exact Or.inl (h1 ▸ h2)
    · exact Or.inr ⟨h1.trans h2, h1'.trans h2'⟩
  · intro a b hab
    cases hEq : Command.eq a b
    · rfl
    · exfalso
      rcases (heq a b).1 hEq with ⟨h2, h2'⟩
      rcases (hlt a b).1 hab with h | ⟨h, h'⟩ <;> omega
  · intro a b hab
    cases hLt : Command.lt b a
    · rfl
    · exfalso
      rcases (hlt a b).1 hab with h | ⟨h, h'⟩ <;>
        rcases (hlt b a).1 hLt with h2 | ⟨h2, h2'⟩ <;> omega

/-- C9 witness: transitivity of the command order applied at three
concrete commands with priorities 0, 1, 2. -/
theorem command_ordering_spec_witness :
    Command.lt ⟨.I, hx "0008", hx "00", hx "01:145038", 0, 0⟩
      ⟨.I, hx "0008", hx "00", hx "01:145038", 2, 0⟩ = true :=
  command_ordering_spec.2.2.2.1 _ ⟨.I, hx "0008", hx "00", hx "01:145038", 1, 0⟩
    _ (by decide) (by decide)

/-- C8: every constructed command must pass the structural self-check
(frame-format check plus payload length between 2 and 96 hex characters)
before being usable: `Command.__init__` raises `ValueError` (a hard
construction fault) when the check fails, and any command it returns
satisfies the check. -/
theorem command_validity_gate :
    ∀ (verb : Verb) (code payload dstId : HexStr) (pr : Int) (t : Nat),
      (Command.is_valid ⟨verb, code, payload, dstId, pr, t⟩ = false →
        Command.mk' verb code payload dstId pr t = .error .valueError) ∧
      (∀ c, Command.mk' verb code payload dstId pr t = .ok c →
        c = ⟨verb, code, payload, dstId, pr, t⟩ ∧ Command.is_valid c = true ∧
          frameFormatOK c = true ∧ 2 ≤ c.payload.length ∧
          c.payload.length ≤ 96) := by
  intro verb code payload dstId pr t
  constructor
  · intro h; simp [Command.mk', h]
  · intro c hc
    simp only [Command.mk'] at hc
    split at hc
    · cases hc
      next hvalid =>
        have h3 := hvalid
        simp [Command.is_valid] at h3
        exact ⟨rfl, hvalid, h3.1.1, h3.1.2, h3.2⟩
    · cases hc

/-- C8 witness: the gate applied at a concrete 1-hex-character payload
(below the 2-character minimum): construction is a `ValueError`. -/
theorem command_validity_gate_witness :
    Command.mk' .W (hx "10A0") (hx "0") (hx "01:145038") 4 0 =
      .error .valueError :=
  (command_validity_gate .W (hx "10A0") (hx "0") (hx "01:145038") 4 0).1
    (by decide)

/-- C1 counterexample: `Command.set_dhw_params` invoked with the invalid
argument `setpoint = 90` (out of the asserted range 30–85) does not raise
to the caller: its body faults with `AssertionError`, but the
`validate_command` decorator catches it and the constructor returns `None`
— the claim that a builder validation fault is never swallowed into a
non-raising `None` result is false. -/
theorem builder_fault_swallowed :
    set_dhw_params (hx "01:145038") (some 90) none none 4 0 = .ok none ∧
      set_dhw_params_body (hx "01:145038") (some 90) none none 4 0 =
        .error .assertionError := by
  constructor <;> rfl

/-- C1 (amended): a builder validation fault is raised synchronously
inside the constructor body, but the `validate_command` decorator catches
`AssertionError`/`AttributeError`/`LookupError`/`TypeError`/`ValueError`,
logs the fault, and makes the decorated constructor return `None` (absent)
in place of the error; only exception classes outside that list would
propagate, and a successful body is returned unchanged. -/
theorem builder_fault_handling :
    (∀ (ctl : HexStr) (sp : ℚ) (ov : Option Nat) (df : Option ℚ)
        (pr : Int) (t : Nat), ¬(30 ≤ sp ∧ sp ≤ 85) →
      set_dhw_params_body ctl (some sp) ov df pr t = .error .assertionError ∧
        set_dhw_params ctl (some sp) ov df pr t = .ok none) ∧
    (∀ e, caughtByValidateCommand e = true →
      validate_command (.error e) = .ok none) ∧
    (∀ c, validate_command (.ok c) = .ok (some c)) := by
  refine ⟨?_, ?_, fun c => rfl⟩
  · intro ctl sp ov df pr t h
    have hb : set_dhw_params_body ctl (some sp) ov df pr t =
        .error .assertionError := by
      simp [set_dhw_params_body, h]
    exact ⟨hb, by simp [set_dhw_params, validate_command, hb, caughtByValidateCommand]⟩
  · intro e he; simp [validate_command, he]

/-- C1 witness: the amended behaviour at the concrete out-of-range
setpoint 100: the body faults, the decorated constructor returns `None`. -/
theorem builder_fault_handling_witness :
    set_dhw_params_body (hx "01:145038") (some 100) none none 4 0 =
      .error .assertionError ∧
      set_dhw_params (hx "01:145038") (some 100) none none 4 0 = .ok none :=
  builder_fault_handling.1 (hx "01:145038") 100 none none 4 0 (by norm_num)

/-- C5 counterexample: with no explicit mode, no `until`, and the supplied
(but zero, hence Python-falsy) duration `0`, `normalise_zone_mode` infers
permanent-override — not countdown-override as the claim's "inferred as
countdown-override if duration is supplied" states. -/
theorem mode_inference_zero_duration :
    normalise_zone_mode (α := ℚ) none (some 20) none (some 0) =
      .ok .permanentOverride ∧
      ZoneMode.permanentOverride ≠ ZoneMode.countdownOverride :=
  ⟨rfl, by decide⟩

/-- C5 (amended): mode normalization is a two-step resolution — with no
explicit mode (and a supplied target), the mode is inferred as
temporary-override if `until` is supplied, countdown-override if a truthy
(nonzero) duration is supplied, and permanent-override otherwise (a zero
duration is falsy, so it is treated as absent by the inference);
supplying both `until` and a duration always faults — in step 1 when the
duration is nonzero, otherwise in step 2; and countdown-override mode
requires a non-absent duration and faults if `until` is supplied. -/
theorem mode_normalisation_spec :
    (∀ (t : ℚ) (u : Option PyDateTime) (d : Option Nat),
      normalise_zone_mode none (some t) u d =
        if u.isSome ∧ truthyDuration d then .error .valueError
        else .ok (if u.isSome then ZoneMode.temporaryOverride
          else if truthyDuration d then ZoneMode.countdownOverride
          else ZoneMode.permanentOverride)) ∧
    (∀ (mode : Option ZoneMode) (t : Option ℚ) (pu : PyDateTime) (n : Nat),
      normalise_both mode t (some pu) (some n) = .error .valueError) ∧
    (∀ (u : Option PyDateTime) (d : Option Nat),
      (d = none →
        normalise_duration .countdownOverride u d = .error .valueError) ∧
      (u.isSome = true →
        normalise_duration .countdownOverride u d = .error .valueError) ∧
      (u = none → d.isSome = true →
        normalise_duration .countdownOverride u d = .ok (u, d))) ∧
    (∀ t : ℚ, normalise_zone_mode none (some t) none (some 0) =
        .ok .permanentOverride ∧
      normalise_both none (some t) none (some 0) = .error .valueError) := by
  refine ⟨?_, ?_, ?_, fun t => ⟨rfl, rfl⟩⟩
  · intro t u d
    cases u <;> cases d <;> simp [normalise_zone_mode, truthyDuration]
  · intro mode t pu n
    by_cases hn : n = 0
    · cases mode with
      | none =>
        cases t <;>
          simp [normalise_both, normalise_zone_mode, normalise_duration,
            truthyDuration, hn]
      | some m =>
        cases t <;> cases m <;>
          simp [normalise_both, normalise_zone_mode, normalise_duration,
            truthyDuration, hn]
    · cases mode <;> cases t <;>
        simp [normalise_both, normalise_zone_mode, normalise_duration,
          truthyDuration, hn]
  · intro u d
    refine ⟨fun hd => ?_, fun hu => ?_, fun hu hd => ?_⟩
    · subst hd; simp [normalise_duration]
    · cases u with
      | none => simp at hu
      | some pu => cases d <;> simp [normalise_duration]
    · subst hu
      cases d with
      | none => simp at hd
      | some dv => simp [normalise_duration]

/-- C5 witness: the amended behaviour at concrete inputs — countdown mode
with both a duration and an `until` faults, and a zero duration with no
mode and no `until` resolves to permanent-override and then faults in
step 2. -/
theorem mode_normalisation_spec_witness :
    normalise_duration .countdownOverride (some ⟨5⟩) (some 10) =
      .error .valueError ∧
      (normalise_zone_mode (α := ℚ) none (some 21) none (some 0) =
          .ok .permanentOverride ∧
        normalise_both (α := ℚ) none (some 21) none (some 0) =
          .error .valueError) :=
  ⟨(mode_normalisation_spec.2.2.1 (some ⟨5⟩) (some 10)).2.1 rfl,
    mode_normalisation_spec.2.2.2 21⟩

theorem tempToHex_some_isHex (q : ℚ) :
    isHexStr (tempToHex (some q)) = true := by
  unfold tempToHex; exact pyHexPad_isHex _ _

theorem is_valid_only_code_payload (v : Verb) (co p d : HexStr) (pr : Int)
    (t : Nat) :
    (⟨v, co, p, d, pr, t⟩ : Command).is_valid =
      (⟨v, co, p, [], 0, 0⟩ : Command).is_valid := rfl

/-- C10: calling `set_zone_mode` (resp. `set_dhw_mode`) with mode
explicitly temporary-override and both `until` and `duration` absent does
not fault: `normalise_duration` computes its advanced-override downgrade
only into a local variable and returns `(until, duration)` unchanged, so
the command is built with the temporary-override mode code `"04"` (not
advanced-override `"01"`), the duration field encoded as the placeholder
`"FFFFFF"`, and no trailing `until` bytes. -/
theorem temporary_override_no_until :
    ∀ (ctl : HexStr) (zone : Nat) (sp : ℚ) (pr : Int) (t : Nat),
      zone < 256 →
      set_zone_mode_body ctl zone (some .temporaryOverride) (some sp)
          none none pr t =
        .ok ⟨.W, code2349,
          pyHexPad 2 zone ++ tempToHex (some sp) ++ hx "04" ++ hx "FFFFFF",
          ctl, pr, t⟩ ∧
      set_zone_mode ctl zone (some .temporaryOverride) (some sp)
          none none pr t =
        .ok (some ⟨.W, code2349,
          pyHexPad 2 zone ++ tempToHex (some sp) ++ hx "04" ++ hx "FFFFFF",
          ctl, pr, t⟩) ∧
      ZoneMode.temporaryOverride.hexCode = hx "04" ∧
      ZoneMode.advancedOverride.hexCode = hx "01" ∧
      set_dhw_mode_body ctl (some .temporaryOverride) (some true)
          none none pr t =
        .ok ⟨.W, code1F41, hx "000104FFFFFF", ctl, pr, t⟩ := by
  intro ctl zone sp pr t hz
  have hplen :
      (pyHexPad 2 zone ++ tempToHex (some sp) ++ hx "04" ++
        hx "FFFFFF").length = 14 := by
    simp [List.length_append,
      pyHexPad_length 2 zone (by norm_num) (by simpa using hz),
      tempToHex_some_length, hx]
  have hphex :
      isHexStr (pyHexPad 2 zone ++ tempToHex (some sp) ++ hx "04" ++
        hx "FFFFFF") = true := by
    simp only [isHexStr_append, pyHexPad_isHex, tempToHex_some_isHex,
      Bool.true_and]
    decide
  have hvalid :
      (⟨.W, code2349,
        pyHexPad 2 zone ++ tempToHex (some sp) ++ hx "04" ++ hx "FFFFFF",
        ctl, pr, t⟩ : Command).is_valid = true := by
    simp only [Command.is_valid, frameFormatOK, hplen, hphex]
    decide
  have hbody :
      set_zone_mode_body ctl zone (some .temporaryOverride) (some sp)
          none none pr t =
        Command.mk' .W code2349
          (pyHexPad 2 zone ++ tempToHex (some sp) ++ hx "04" ++
            hx "FFFFFF" ++ []) ctl pr t := rfl
  rw [List.append_nil] at hbody
  have hmk :
      Command.mk' .W code2349
          (pyHexPad 2 zone ++ tempToHex (some sp) ++ hx "04" ++ hx "FFFFFF")
          ctl pr t =
        .ok ⟨.W, code2349,
          pyHexPad 2 zone ++ tempToHex (some sp) ++ hx "04" ++ hx "FFFFFF",
          ctl, pr, t⟩ := by
    simp only [Command.mk']
    rw [if_pos hvalid]
  have hdhw1 :
      set_dhw_mode_body ctl (some .temporaryOverride) (some true)
          none none pr t =
        Command.mk' .W code1F41
          (hx "00" ++ hx "01" ++ hx "04" ++ hx "FFFFFF" ++ []) ctl pr t := rfl
  have hlist :
      hx "00" ++ hx "01" ++ hx "04" ++ hx "FFFFFF" ++ ([] : HexStr) =
        hx "000104FFFFFF" := by decide
  rw [hlist] at hdhw1
  have hdvalid :
      (⟨.W, code1F41, hx "000104FFFFFF", ctl, pr, t⟩ : Command).is_valid =
        true := by
    rw [is_valid_only_code_payload]
    decide
  have hdhw2 :
      Command.mk' .W code1F41 (hx "000104FFFFFF") ctl pr t =
        .ok ⟨.W, code1F41, hx "000104FFFFFF", ctl, pr, t⟩ := by
    simp only [Command.mk']
    rw [if_pos hdvalid]
  refine ⟨hbody.trans hmk, ?_, rfl, rfl, hdhw1.trans hdhw2⟩
  unfold set_zone_mode
  rw [hbody.trans hmk]
  rfl

/-- C10 witness: the theorem applied at zone 1 and setpoint 20.0 °C
(payload `"0107D004FFFFFF"`). -/
theorem temporary_override_no_until_witness :
    set_zone_mode (hx "01:145038") 1 (some .temporaryOverride) (some 20)
        none none 4 0 =
      .ok (some ⟨.W, code2349,
        pyHexPad 2 1 ++ tempToHex (some 20) ++ hx "04" ++ hx "FFFFFF",
        hx "01:145038", 4, 0⟩) :=
  (temporary_override_no_until (hx "01:145038") 1 20 4 0
    (by norm_num)).2.1

/-- C2: the top-level `parse_payload` never raises to its caller: every
exception class in the taxonomy is listed in one of its `except` clauses,
every call returns (it is never an `error`), and whenever the dispatched
parser faults — including `parser_unknown`'s `NotImplementedError` for an
unrecognized code — the result is the absent value `None`. -/
theorem parse_payload_no_raise :
    (∀ e : PyExc, caughtByParsePayload e = true) ∧
    (∀ msg : Msg, ∃ v, parse_payload msg = .ok v) ∧
    (∀ (msg : Msg) (e : PyExc), getParser msg.code msg = .error e →
      parse_payload msg = .ok none) := by
  have hcaught : ∀ e : PyExc, caughtByParsePayload e = true := by
    intro e; cases e <;> rfl
  refine ⟨hcaught, ?_, ?_⟩
  · intro msg
    cases h : getParser msg.code msg with
    | ok r => exact ⟨some r, by unfold parse_payload; rw [h]⟩
    | error e =>
      refine ⟨none, ?_⟩
      unfold parse_payload
      rw [h]
      simp [hcaught e]
  · intro msg e h
    unfold parse_payload
    rw [h]
    simp [hcaught e]

/-- C2 witness: a frame with the unrecognized code `"7777"` dispatches to
`parser_unknown`, whose `NotImplementedError` is caught: `parse_payload`
returns `None`. -/
theorem parse_payload_no_raise_witness :
    parse_payload ⟨hx "7777", .I, hx "00", 12⟩ = .ok none :=
  parse_payload_no_raise.2.2 ⟨hx "7777", .I, hx "00", 12⟩
    .notImplementedError rfl

/-- C3: index exclusivity — every record successfully produced by the
embedded fault-log parser (`parser_0418` under the wrapper's index merge)
carries at most one of the six identity keys `zone_idx`, `domain_id`,
`ufh_idx`, `dhw_idx`, `hvac_id`, `other_idx`; the wrapper-level index
mapping itself carries at most one; and the `_idx` validator returns its
input unchanged, so a validated index mapping also carries at most one. -/
theorem index_exclusivity :
    (∀ (payload : HexStr) (verb : Verb) (mz : Nat) (r : Record),
      parse_0418_full payload verb mz = .ok r → idxKeyCount r ≤ 1) ∧
    (∀ (kind : IdxKind) (v : String), idxKeyCount (mkMsgIdx kind v) ≤ 1) ∧
    (∀ (seqx : HexStr) (kind : IdxKind) (v : String) (raw : HexStr)
        (mz : Nat) (r : Record),
      idx_check seqx (mkMsgIdx kind v) raw mz = .ok r →
        idxKeyCount r ≤ 1) := by
  have hmk : ∀ (kind : IdxKind) (v : String),
      idxKeyCount (mkMsgIdx kind v) ≤ 1 := by
    intro kind v
    cases kind <;> simp [mkMsgIdx, idxKeyCount, hasKey_cons, hasKey_nil]
  have hchk : ∀ (seqx : HexStr) (m : Record) (raw : HexStr) (mz : Nat)
      (r : Record), idx_check seqx m raw mz = .ok r → r = m := by
    intro seqx m raw mz r h
    unfold idx_check at h
    repeat' (first | split at h | (replace h := pyAssert_ok h))
    all_goals first | (cases h; rfl) | cases h
  refine ⟨?_, hmk,
    fun seqx kind v raw mz r h => (hchk _ _ _ _ _ h) ▸ hmk kind v⟩
  intro payload verb mz r h
  unfold parse_0418_full at h
  split at h
  · cases h
  · next r' heq =>
    cases h
    unfold parser_0418 at heq
    repeat' (first | split at heq | (replace heq := pyAssert_ok heq))
    all_goals
      cases heq <;>
        first
          | exact Nat.zero_le 1
          | exact Nat.le_refl 1

/-- C3 witness: the exclusivity bound applied at a concrete `RQ` frame for
the fault-log code, whose parse yields the single-entry `log_idx` record. -/
theorem index_exclusivity_witness :
    idxKeyCount [(RKey.logIdx, FieldV.s "04")] ≤ 1 :=
  index_exclusivity.1 (hx "000004") .RQ 12 [(RKey.logIdx, FieldV.s "04")]
    (by decide)

end RamsesRF
